import Mathlib

/-!
Verification of the realtime fan-out engine of the `appMakersLaTest`
repository against its natural-language specification.

The development shallowly embeds the realtime-service core
(`RealtimeService`, its Redis messaging bridge, the driver- and
client-facing WebSocket gateways and the HTTP collaborator adapter)
as pure Lean functions over an explicit state record.  JavaScript
`Map` and `Set` objects are modelled as association lists and
duplicate-free lists; calls issued to the messaging bus are recorded
in explicit traces so that claims about "how many publish /
subscribe / unsubscribe calls happen" can be stated exactly.
Collaborator (HTTP) results are passed in as `Option` arguments,
matching the `null`-on-failure contract of `HttpDriverService`.
-/

/-- A position sample, mirroring `DriverLocation` of the realtime service:
`driverId`, `latitude`, `longitude` and a `timestamp` in milliseconds
since the epoch.  Coordinates are modelled as rationals. -/
structure DriverLocation where
  driverId : String
  latitude : ℚ
  longitude : ℚ
  timestamp : ℤ
deriving DecidableEq

/-- `DriverLocation.isRecent` from `driver-location.entity.ts`:
the sample is recent when `timestamp > now - 10 minutes`
(10 minutes = 600000 ms; `Date.now()` is passed in explicitly). -/
def DriverLocation.isRecent (l : DriverLocation) (now : ℤ) : Bool :=
  decide (l.timestamp > now - 10 * 60 * 1000)

/-- A display profile, mirroring `DriverProfile` of the realtime service. -/
structure DriverProfile where
  id : String
  name : String
  profileImage : String
deriving DecidableEq

/-- Lookup in an association-list model of a JavaScript `Map`
(`Map.prototype.get`). -/
def mapLookup {α : Type} (k : String) : List (String × α) → Option α
  | [] => none
  | p :: rest => if p.1 = k then some p.2 else mapLookup k rest

/-- Removal of every binding of a key, used to model `Map.prototype.delete`
and to normalise insertion. -/
def mapEraseAll {α : Type} (k : String) : List (String × α) → List (String × α)
  | [] => []
  | p :: rest => if p.1 = k then mapEraseAll k rest else p :: mapEraseAll k rest

/-- `Map.prototype.set`: bind `k` to `v`, replacing any previous binding. -/
def mapInsert {α : Type} (k : String) (v : α) (l : List (String × α)) :
    List (String × α) :=
  (k, v) :: mapEraseAll k l

/-- `Set.prototype.add` on a duplicate-free list model of a JavaScript
`Set` (insertion position is irrelevant to the code, which never iterates
these sets). -/
def setInsert (c : String) (l : List String) : List String :=
  if c ∈ l then l else c :: l

/-- `Set.prototype.delete` on the duplicate-free list model. -/
def setErase (c : String) (l : List String) : List String :=
  l.filter (fun x => x ≠ c)

/-- The mutable state owned by one `RealtimeService` instance, together
with traces of the calls it has issued to the messaging bus.
`clientSubscriptions`, `driverSubscribers`, `locationCache` and
`profileCache` are the four `Map` fields of `realtime.service.ts`;
`busSubscribed` is the set of per-driver Redis channels this instance is
currently subscribed to, and the three trace fields record every
`subscribeToDriverLocationUpdates`, `unsubscribeFromDriverLocationUpdates`
and `publishDriverLocationUpdate` call in order. -/
structure RTState where
  clientSubscriptions : List (String × String)
  driverSubscribers : List (String × List String)
  locationCache : List (String × DriverLocation)
  profileCache : List (String × DriverProfile)
  busSubscribed : List String
  busSubscribeTrace : List String
  busUnsubscribeTrace : List String
  busPublishTrace : List (String × DriverLocation)
deriving DecidableEq

/-- The state of a freshly constructed `RealtimeService`. -/
def initialState : RTState :=
  ⟨[], [], [], [], [], [], [], []⟩

/-- `RealtimeService.unsubscribeClientFromDriver`: remove the client from
the driver's subscriber set; if the set becomes empty, issue one bus
unsubscribe call and drop the driver's entry; finally remove the client's
own subscription binding. -/
def unsubscribeClientFromDriver (clientId driverId : String) (s : RTState) :
    RTState :=
  let s1 :=
    match mapLookup driverId s.driverSubscribers with
    | some obs =>
      let obs' := setErase clientId obs
      if obs'.isEmpty then
        { s with
          driverSubscribers := mapEraseAll driverId s.driverSubscribers
          busSubscribed := setErase driverId s.busSubscribed
          busUnsubscribeTrace := s.busUnsubscribeTrace ++ [driverId] }
      else
        { s with
          driverSubscribers := mapInsert driverId obs' s.driverSubscribers }
    | none => s
  { s1 with clientSubscriptions := mapEraseAll clientId s1.clientSubscriptions }

/-- The body of `RealtimeService.subscribeToDriverUpdates` after its
implicit-unsubscribe step: bind the client, create the driver's observer
set and bus subscription if this is the first observer, add the client to
the set, then lazily populate the two caches. -/
def subscribeFresh (clientId driverId : String)
    (profileFetch : Option DriverProfile) (locationFetch : Option DriverLocation)
    (s0 : RTState) : RTState :=
  -- bind the client to the new driver
  let s1 := { s0 with
    clientSubscriptions := mapInsert clientId driverId s0.clientSubscriptions }
  -- first subscriber for this driver: create the set and subscribe the bus channel
  let s2 :=
    if (mapLookup driverId s1.driverSubscribers).isNone then
      { s1 with
        driverSubscribers := mapInsert driverId [] s1.driverSubscribers
        busSubscribed := setInsert driverId s1.busSubscribed
        busSubscribeTrace := s1.busSubscribeTrace ++ [driverId] }
    else s1
  -- add the client to the driver's subscriber set
  let s3 :=
    match mapLookup driverId s2.driverSubscribers with
    | some obs =>
      { s2 with
        driverSubscribers := mapInsert driverId (setInsert clientId obs) s2.driverSubscribers }
    | none => s2
  -- lazily populate the profile cache
  let s4 :=
    if (mapLookup driverId s3.profileCache).isNone then
      match profileFetch with
      | some profile => { s3 with profileCache := mapInsert driverId profile s3.profileCache }
      | none => s3
    else s3
  -- lazily populate the location cache
  let s5 :=
    if (mapLookup driverId s4.locationCache).isNone then
      match locationFetch with
      | some location => { s4 with locationCache := mapInsert driverId location s4.locationCache }
      | none => s4
    else s4
  s5

/-- `RealtimeService.subscribeToDriverUpdates`: if the client is already
bound to a driver, first run the unsubscribe path for that pair, then
perform the fresh subscription.  The collaborator results for the lazy
profile / last-known-location fetches are supplied as the `Option`
arguments (a `none` models a `null` or failed HTTP call). -/
def subscribeToDriverUpdates (clientId driverId : String)
    (profileFetch : Option DriverProfile) (locationFetch : Option DriverLocation)
    (s : RTState) : RTState :=
  match mapLookup clientId s.clientSubscriptions with
  | some previousDriverId =>
    subscribeFresh clientId driverId profileFetch locationFetch
      (unsubscribeClientFromDriver clientId previousDriverId s)
  | none => subscribeFresh clientId driverId profileFetch locationFetch s

/-- `RealtimeService.unsubscribeFromDriverUpdates`: a no-op for an unknown
client, otherwise the unsubscribe path for the client's bound driver. -/
def unsubscribeFromDriverUpdates (clientId : String) (s : RTState) : RTState :=
  match mapLookup clientId s.clientSubscriptions with
  | some driverId => unsubscribeClientFromDriver clientId driverId s
  | none => s

/-- `RealtimeService.handleDriverLocationUpdate`: overwrite the location
cache; if the driver has no local subscribers return, otherwise publish
the sample on the bus. -/
def handleDriverLocationUpdate (driverId : String) (location : DriverLocation)
    (s : RTState) : RTState :=
  let s1 := { s with locationCache := mapInsert driverId location s.locationCache }
  match mapLookup driverId s1.driverSubscribers with
  | none => s1
  | some obs =>
    if obs.isEmpty then s1
    else { s1 with busPublishTrace := s1.busPublishTrace ++ [(driverId, location)] }

/-- The handler the `RealtimeService` constructor registers with the
messaging bus for inbound cross-instance deliveries:
`this.messaging.onDriverLocationUpdate(this.handleDriverLocationUpdate.bind(this))`.
It is the ingestion method itself. -/
def registeredBusHandler : String → DriverLocation → RTState → RTState :=
  fun driverId location s => handleDriverLocationUpdate driverId location s

/-- One ledger-mutating operation of the public subscription interface. -/
inductive Op where
  | subscribe (clientId driverId : String)
      (profileFetch : Option DriverProfile) (locationFetch : Option DriverLocation)
  | unsubscribe (clientId : String)
deriving DecidableEq

/-- Apply one operation to a state. -/
def applyOp (s : RTState) : Op → RTState
  | .subscribe clientId driverId profileFetch locationFetch =>
    subscribeToDriverUpdates clientId driverId profileFetch locationFetch s
  | .unsubscribe clientId => unsubscribeFromDriverUpdates clientId s

/-- The state reached from a fresh service by a sequence of operations. -/
def run (ops : List Op) : RTState :=
  ops.foldl applyOp initialState

/-- The driver's current local observer set (empty when the driver has no
entry), i.e. `driverSubscribers.get(driverId)` with a default. -/
def observersOf (driverId : String) (s : RTState) : List String :=
  (mapLookup driverId s.driverSubscribers).getD []

/-- `RealtimeService.getDriverLocationAndProfile`: cache-first resolution
of the pair; a missing half is fetched from the collaborator and cached on
success; a `null` for either half makes the whole call return `none`.
Returns the result together with the (possibly cache-updated) state. -/
def getDriverLocationAndProfile (driverId : String)
    (locationFetch : Option DriverLocation) (profileFetch : Option DriverProfile)
    (s : RTState) : Option (DriverLocation × DriverProfile) × RTState :=
  match mapLookup driverId s.locationCache with
  | some location =>
    match mapLookup driverId s.profileCache with
    | some profile => (some (location, profile), s)
    | none =>
      match profileFetch with
      | some profile =>
        (some (location, profile),
         { s with profileCache := mapInsert driverId profile s.profileCache })
      | none => (none, s)
  | none =>
    match locationFetch with
    | none => (none, s)
    | some location =>
      let s1 := { s with locationCache := mapInsert driverId location s.locationCache }
      match mapLookup driverId s1.profileCache with
      | some profile => (some (location, profile), s1)
      | none =>
        match profileFetch with
        | some profile =>
          (some (location, profile),
           { s1 with profileCache := mapInsert driverId profile s1.profileCache })
        | none => (none, s1)

/-- Location resolution used by `RealtimeService.isDriverOnline`:
`this.locationCache.get(driverId) || await this.driverService.getLastKnownLocation(driverId)`. -/
def resolveLocation (driverId : String) (locationFetch : Option DriverLocation)
    (s : RTState) : Option DriverLocation :=
  match mapLookup driverId s.locationCache with
  | some location => some location
  | none => locationFetch

/-- `RealtimeService.isDriverOnline`: resolve a location (cache first,
collaborator fallback); `false` when none is resolvable, else the
recency predicate of the sample. -/
def isDriverOnline (driverId : String) (locationFetch : Option DriverLocation)
    (now : ℤ) (s : RTState) : Bool :=
  match resolveLocation driverId locationFetch s with
  | none => false
  | some location => location.isRecent now

/-- Response body of the auth service's `POST /auth/validate-token`
endpoint as far as `HttpDriverService` can see it: it may or may not
carry a validity flag, and may or may not carry a `driverId`. -/
structure AuthValidateResponse where
  isValidFlag : Option Bool
  driverId : Option String
deriving DecidableEq

/-- `HttpDriverService.validateDriverToken`: the HTTP call either
resolves with a response body (`Except.ok`) or throws (`Except.error`).
On resolution the adapter answers `isValid := true` with the body's
`driverId`; on a throw it answers `isValid := false`. -/
def validateDriverToken (httpResult : Except Unit AuthValidateResponse) :
    Bool × Option String :=
  match httpResult with
  | .ok body => (true, body.driverId)
  | .error _ => (false, none)

/-- The payload of a driver-facing `update-location` message: each field
is `some x` when it is present and is a JavaScript number `x`, and `none`
when it is absent or not a number (`typeof !== 'number'`). -/
structure LocationUpdateMsg where
  latitude : Option ℚ
  longitude : Option ℚ
deriving DecidableEq

/-- `DriverGateway.handleLocationUpdate` (the `update-location` event
handler).  `authedDriver` is the socket's entry in `driverSockets`
(`none` when the socket never authenticated).  The result pairs the
service state after the call with either `()` on success or the thrown
`WsException` message.  The gateway checks only that the socket is
authenticated and that both coordinates are numbers, then constructs a
`DriverLocation` with a server-assigned timestamp and forwards it. -/
def gatewayHandleLocationUpdate (authedDriver : Option String)
    (data : Option LocationUpdateMsg) (now : ℤ) (s : RTState) :
    RTState × Except String Unit :=
  match authedDriver with
  | none => (s, .error "Not authenticated")
  | some driverId =>
    match data with
    | none => (s, .error "Invalid location data")
    | some msg =>
      match msg.latitude, msg.longitude with
      | some latitude, some longitude =>
        (handleDriverLocationUpdate driverId
          ⟨driverId, latitude, longitude, now⟩ s, .ok ())
      | some _, none => (s, .error "Invalid location data")
      | none, _ => (s, .error "Invalid location data")

/-- An event the `ClientGateway` emits to one observer socket. -/
inductive ClientEvent where
  | driverUpdate (driverId : String) (latitude longitude : ℚ) (timestamp : ℤ)
      (name profileImage : String) (isOnline : Bool)
  | driverOffline (driverId : String) (errorCode message : String)
      (lastUpdateTime : Option ℤ)
deriving DecidableEq

/-- `ClientGateway.ONLINE_UPDATE_INTERVAL` (5 seconds, in ms). -/
def ONLINE_UPDATE_INTERVAL : ℕ := 5000

/-- `ClientGateway.OFFLINE_UPDATE_INTERVAL` (1 minute, in ms). -/
def OFFLINE_UPDATE_INTERVAL : ℕ := 60000

/-- `ClientGateway.sendDriverUpdate`, one push tick for a client.
`interval` is the client's current entry in `clientIntervals` (the
cadence, in ms, of its scheduled repeating timer, or `none` when no timer
is registered yet).  Returns the emitted event, the client's new timer
cadence and the service state after the embedded
`getDriverLocationAndProfile` call.  The gateway re-checks recency
manually with a strict `<` on `now - timestamp`, and only reschedules
when a timer is currently registered. -/
def sendDriverUpdate (driverId : String)
    (locationFetch : Option DriverLocation) (profileFetch : Option DriverProfile)
    (now : ℤ) (interval : Option ℕ) (s : RTState) :
    ClientEvent × Option ℕ × RTState :=
  match getDriverLocationAndProfile driverId locationFetch profileFetch s with
  | (none, s1) =>
    (.driverOffline driverId "OFFLINE_DRIVER" "Driver is not available" none,
     if interval.isSome then some OFFLINE_UPDATE_INTERVAL else interval, s1)
  | (some (location, profile), s1) =>
    if now - location.timestamp < 10 * 60 * 1000 then
      (.driverUpdate driverId location.latitude location.longitude
         location.timestamp profile.name profile.profileImage true,
       if interval.isSome then some ONLINE_UPDATE_INTERVAL else interval, s1)
    else
      (.driverOffline driverId "OFFLINE_DRIVER"
         "The driver has not sent their location in the last 10 minutes"
         (some location.timestamp),
       if interval.isSome then some OFFLINE_UPDATE_INTERVAL else interval, s1)

/-- The publish gate of `handleDriverLocationUpdate`: the driver has an
entry in `driverSubscribers` and its observer set is non-empty (the code
returns early when `!has(driverId) || get(driverId).size === 0`). -/
def hasLocalObservers (driverId : String) (s : RTState) : Bool :=
  match mapLookup driverId s.driverSubscribers with
  | some obs => !obs.isEmpty
  | none => false

/-! ### Association-list and set lemmas -/

theorem mapLookup_insert_self {α : Type} (k : String) (v : α)
    (l : List (String × α)) : mapLookup k (mapInsert k v l) = some v := by
  simp [mapInsert, mapLookup]

theorem mapLookup_eraseAll_self {α : Type} (k : String)
    (l : List (String × α)) : mapLookup k (mapEraseAll k l) = none := by
  induction l with
  | nil => rfl
  | cons p rest ih =>
    by_cases h : p.1 = k <;> simp [mapEraseAll, mapLookup, h, ih]

theorem mapLookup_eraseAll_ne {α : Type} {k' k : String} (h : k' ≠ k)
    (l : List (String × α)) : mapLookup k' (mapEraseAll k l) = mapLookup k' l := by
  induction l with
  | nil => rfl
  | cons p rest ih =>
    have hk : k ≠ k' := fun hc => h hc.symm
    by_cases hp : p.1 = k
    · simp [mapEraseAll, mapLookup, hp, hk, ih]
    · by_cases hp' : p.1 = k' <;> simp [mapEraseAll, mapLookup, hp, hp', h, ih]

theorem mapLookup_insert_ne {α : Type} {k' k : String} (h : k' ≠ k) (v : α)
    (l : List (String × α)) :
    mapLookup k' (mapInsert k v l) = mapLookup k' l := by
  have : k ≠ k' := fun hc => h hc.symm
  simp [mapInsert, mapLookup, this, mapLookup_eraseAll_ne h]

theorem mapEraseAll_idem {α : Type} (k : String) (l : List (String × α)) :
    mapEraseAll k (mapEraseAll k l) = mapEraseAll k l := by
  induction l with
  | nil => rfl
  | cons p rest ih =>
    by_cases h : p.1 = k <;> simp [mapEraseAll, h, ih]

theorem mapInsert_mapInsert_same {α : Type} (k : String) (v w : α)
    (l : List (String × α)) :
    mapInsert k v (mapInsert k w l) = mapInsert k v l := by
  simp [mapInsert, mapEraseAll, mapEraseAll_idem]

theorem mem_mapEraseAll {α : Type} {p : String × α} {k : String}
    {l : List (String × α)} : p ∈ mapEraseAll k l ↔ p ∈ l ∧ p.1 ≠ k := by
  induction l with
  | nil => simp [mapEraseAll]
  | cons q rest ih =>
    by_cases h : q.1 = k
    · simp only [mapEraseAll, if_pos h, ih, List.mem_cons]
      constructor
      · rintro ⟨hm, hne⟩; exact ⟨Or.inr hm, hne⟩
      · rintro ⟨hm | hm, hne⟩
        · exact absurd (hm ▸ h) hne
        · exact ⟨hm, hne⟩
    · simp only [mapEraseAll, if_neg h, List.mem_cons, ih]
      constructor
      · rintro (rfl | ⟨hm, hne⟩)
        · exact ⟨Or.inl rfl, h⟩
        · exact ⟨Or.inr hm, hne⟩
      · rintro ⟨rfl | hm, hne⟩
        · exact Or.inl rfl
        · exact Or.inr ⟨hm, hne⟩

theorem mapLookup_eq_some_mem {α : Type} {k : String} {v : α}
    {l : List (String × α)} (h : mapLookup k l = some v) : (k, v) ∈ l := by
  induction l with
  | nil => simp [mapLookup] at h
  | cons p rest ih =>
    by_cases hp : p.1 = k
    · simp only [mapLookup, if_pos hp, Option.some.injEq] at h
      cases p with
      | mk a b =>
        obtain rfl : a = k := hp
        obtain rfl : b = v := h
        exact List.mem_cons_self _ _
    · simp only [mapLookup, if_neg hp] at h
      exact List.mem_cons_of_mem _ (ih h)

theorem mem_mapInsert {α : Type} {p : String × α} {k : String} {v : α}
    {l : List (String × α)} :
    p ∈ mapInsert k v l ↔ p = (k, v) ∨ (p ∈ l ∧ p.1 ≠ k) := by
  simp [mapInsert, mem_mapEraseAll]

theorem mem_setInsert {x c : String} {l : List String} :
    x ∈ setInsert c l ↔ x = c ∨ x ∈ l := by
  by_cases h : c ∈ l
  · simp only [setInsert, if_pos h]
    exact ⟨Or.inr, fun hx => hx.elim (fun he => he ▸ h) id⟩
  · simp [setInsert, if_neg h]

theorem mem_setErase {x c : String} {l : List String} :
    x ∈ setErase c l ↔ x ∈ l ∧ x ≠ c := by
  simp [setErase, List.mem_filter]

theorem not_mem_setErase_self (c : String) (l : List String) :
    c ∉ setErase c l := fun h => (mem_setErase.mp h).2 rfl

theorem setErase_nodup {c : String} {l : List String} (h : l.Nodup) :
    (setErase c l).Nodup := List.Nodup.filter _ h

theorem setInsert_nodup {c : String} {l : List String} (h : l.Nodup) :
    (setInsert c l).Nodup := by
  by_cases hc : c ∈ l
  · simpa [setInsert, if_pos hc] using h
  · simpa [setInsert, if_neg hc] using List.nodup_cons.mpr ⟨hc, h⟩

theorem setInsert_ne_nil (c : String) (l : List String) :
    setInsert c l ≠ [] := by
  by_cases hc : c ∈ l
  · simp only [setInsert, if_pos hc]
    intro h
    rw [h] at hc
    exact List.not_mem_nil c hc
  · simp [setInsert, if_neg hc]

theorem count_setInsert_of_not_mem {c : String} {l : List String}
    (h : c ∉ l) : List.count c (setInsert c l) = 1 := by
  have h0 : List.count c l = 0 := List.count_eq_zero.mpr h
  simp [setInsert, if_neg h, List.count_cons_self, h0]

/-! ### Stage lemmas for the subscription operations -/

theorem subscribeFresh_fields (clientId driverId : String)
    (profileFetch : Option DriverProfile) (locationFetch : Option DriverLocation)
    (s0 : RTState) :
    (subscribeFresh clientId driverId profileFetch locationFetch s0).clientSubscriptions
        = mapInsert clientId driverId s0.clientSubscriptions ∧
    (subscribeFresh clientId driverId profileFetch locationFetch s0).driverSubscribers
        = mapInsert driverId
            (setInsert clientId ((mapLookup driverId s0.driverSubscribers).getD []))
            s0.driverSubscribers ∧
    (subscribeFresh clientId driverId profileFetch locationFetch s0).busSubscribed
        = (if (mapLookup driverId s0.driverSubscribers).isNone
            then setInsert driverId s0.busSubscribed else s0.busSubscribed) ∧
    (subscribeFresh clientId driverId profileFetch locationFetch s0).busSubscribeTrace
        = (if (mapLookup driverId s0.driverSubscribers).isNone
            then s0.busSubscribeTrace ++ [driverId] else s0.busSubscribeTrace) ∧
    (subscribeFresh clientId driverId profileFetch locationFetch s0).busUnsubscribeTrace
        = s0.busUnsubscribeTrace ∧
    (subscribeFresh clientId driverId profileFetch locationFetch s0).busPublishTrace
        = s0.busPublishTrace := by
  unfold subscribeFresh
  repeat' split
  all_goals first
    | rfl
    | (simp_all [mapLookup_insert_self, mapInsert_mapInsert_same,
        apply_ite RTState.clientSubscriptions, apply_ite RTState.driverSubscribers,
        apply_ite RTState.locationCache, apply_ite RTState.profileCache,
        apply_ite RTState.busSubscribed, apply_ite RTState.busSubscribeTrace,
        apply_ite RTState.busUnsubscribeTrace, apply_ite RTState.busPublishTrace];
        done)
    | (cases hd : mapLookup driverId s0.driverSubscribers <;>
        simp_all [mapLookup_insert_self, mapInsert_mapInsert_same,
          apply_ite RTState.clientSubscriptions, apply_ite RTState.driverSubscribers,
          apply_ite RTState.locationCache, apply_ite RTState.profileCache,
          apply_ite RTState.busSubscribed, apply_ite RTState.busSubscribeTrace,
          apply_ite RTState.busUnsubscribeTrace, apply_ite RTState.busPublishTrace])

theorem unsubscribeClientFromDriver_of_none (clientId driverId : String)
    (s : RTState) (hd : mapLookup driverId s.driverSubscribers = none) :
    unsubscribeClientFromDriver clientId driverId s =
      { s with clientSubscriptions := mapEraseAll clientId s.clientSubscriptions } := by
  simp [unsubscribeClientFromDriver, hd]

theorem unsubscribeClientFromDriver_of_last (clientId driverId : String)
    (obs : List String) (s : RTState)
    (hd : mapLookup driverId s.driverSubscribers = some obs)
    (he : setErase clientId obs = []) :
    unsubscribeClientFromDriver clientId driverId s =
      { s with
        clientSubscriptions := mapEraseAll clientId s.clientSubscriptions
        driverSubscribers := mapEraseAll driverId s.driverSubscribers
        busSubscribed := setErase driverId s.busSubscribed
        busUnsubscribeTrace := s.busUnsubscribeTrace ++ [driverId] } := by
  simp [unsubscribeClientFromDriver, hd, he]

theorem unsubscribeClientFromDriver_of_rest (clientId driverId : String)
    (obs : List String) (s : RTState)
    (hd : mapLookup driverId s.driverSubscribers = some obs)
    (he : setErase clientId obs ≠ []) :
    unsubscribeClientFromDriver clientId driverId s =
      { s with
        clientSubscriptions := mapEraseAll clientId s.clientSubscriptions
        driverSubscribers :=
          mapInsert driverId (setErase clientId obs) s.driverSubscribers } := by
  simp [unsubscribeClientFromDriver, hd, List.isEmpty_iff, he]

/-! ### The subscription-ledger invariant -/

/-- The inductive invariant tying together the three sides of the
subscription ledger: every driver entry is a non-empty duplicate-free
observer set whose members are bound back to that driver; every client
binding is mirrored in the driver's observer set; and the driver entries
are exactly the bus channels this instance is subscribed to. -/
def LedgerInv (s : RTState) : Prop :=
  (∀ p ∈ s.driverSubscribers,
      p.2 ≠ [] ∧ p.2.Nodup ∧
      ∀ c ∈ p.2, mapLookup c s.clientSubscriptions = some p.1) ∧
  (∀ q ∈ s.clientSubscriptions,
      ∃ obs, mapLookup q.2 s.driverSubscribers = some obs ∧ q.1 ∈ obs) ∧
  (∀ p ∈ s.driverSubscribers, p.1 ∈ s.busSubscribed) ∧
  (∀ e ∈ s.busSubscribed, ∃ obs, mapLookup e s.driverSubscribers = some obs)

theorem inv_initialState : LedgerInv initialState := by
  refine ⟨?_, ?_, ?_, ?_⟩ <;> simp [initialState]

theorem inv_unsubscribeClientFromDriver {s : RTState} (hInv : LedgerInv s)
    {clientId driverId : String}
    (hcd : mapLookup clientId s.clientSubscriptions = some driverId) :
    LedgerInv (unsubscribeClientFromDriver clientId driverId s) := by
  obtain ⟨h1, h2, h3, h4⟩ := hInv
  obtain ⟨obs, hd, hcmem⟩ := h2 (clientId, driverId) (mapLookup_eq_some_mem hcd)
  by_cases he : setErase clientId obs = []
  · rw [unsubscribeClientFromDriver_of_last clientId driverId obs s hd he]
    refine ⟨?_, ?_, ?_, ?_⟩
    · intro p hp
      obtain ⟨hpDS, hpne⟩ := mem_mapEraseAll.mp hp
      obtain ⟨hne, hnd, hbind⟩ := h1 p hpDS
      refine ⟨hne, hnd, ?_⟩
      intro x hx
      have hxb := hbind x hx
      have hxc : x ≠ clientId := by
        intro hxeq
        rw [hxeq, hcd] at hxb
        exact hpne (Option.some.inj hxb).symm
      simpa [mapLookup_eraseAll_ne hxc] using hxb
    · intro q hq
      obtain ⟨hqCS, hqne⟩ := mem_mapEraseAll.mp hq
      obtain ⟨obs2, hq2, hq1mem⟩ := h2 q hqCS
      have hq2d : q.2 ≠ driverId := by
        intro hqeq
        rw [hqeq, hd] at hq2
        have : q.1 ∈ setErase clientId obs :=
          mem_setErase.mpr ⟨(Option.some.inj hq2) ▸ hq1mem, hqne⟩
        rw [he] at this
        exact List.not_mem_nil _ this
      exact ⟨obs2, by simpa [mapLookup_eraseAll_ne hq2d] using hq2, hq1mem⟩
    · intro p hp
      obtain ⟨hpDS, hpne⟩ := mem_mapEraseAll.mp hp
      exact mem_setErase.mpr ⟨h3 p hpDS, hpne⟩
    · intro e hein
      obtain ⟨heB, hed⟩ := mem_setErase.mp hein
      obtain ⟨obs3, h3e⟩ := h4 e heB
      exact ⟨obs3, by simpa [mapLookup_eraseAll_ne hed] using h3e⟩
  · rw [unsubscribeClientFromDriver_of_rest clientId driverId obs s hd he]
    obtain ⟨hne0, hnd0, hbind0⟩ := h1 (driverId, obs) (mapLookup_eq_some_mem hd)
    refine ⟨?_, ?_, ?_, ?_⟩
    · intro p hp
      rcases mem_mapInsert.mp hp with hpnew | ⟨hpDS, hpne⟩
      · subst hpnew
        refine ⟨he, setErase_nodup hnd0, ?_⟩
        intro x hx
        obtain ⟨hxobs, hxc⟩ := mem_setErase.mp hx
        simpa [mapLookup_eraseAll_ne hxc] using hbind0 x hxobs
      · obtain ⟨hne, hnd, hbind⟩ := h1 p hpDS
        refine ⟨hne, hnd, ?_⟩
        intro x hx
        have hxb := hbind x hx
        have hxc : x ≠ clientId := by
          intro hxeq
          rw [hxeq, hcd] at hxb
          exact hpne (Option.some.inj hxb).symm
        simpa [mapLookup_eraseAll_ne hxc] using hxb
    · intro q hq
      obtain ⟨hqCS, hqne⟩ := mem_mapEraseAll.mp hq
      obtain ⟨obs2, hq2, hq1mem⟩ := h2 q hqCS
      by_cases hq2d : q.2 = driverId
      · rw [hq2d, hd] at hq2
        refine ⟨setErase clientId obs, by rw [hq2d, mapLookup_insert_self], ?_⟩
        exact mem_setErase.mpr ⟨(Option.some.inj hq2) ▸ hq1mem, hqne⟩
      · exact ⟨obs2, by simpa [mapLookup_insert_ne hq2d] using hq2, hq1mem⟩
    · intro p hp
      rcases mem_mapInsert.mp hp with hpnew | ⟨hpDS, _⟩
      · subst hpnew
        exact h3 (driverId, obs) (mapLookup_eq_some_mem hd)
      · exact h3 p hpDS
    · intro e heB
      by_cases hed : e = driverId
      · exact ⟨setErase clientId obs, by rw [hed, mapLookup_insert_self]⟩
      · obtain ⟨obs3, h3e⟩ := h4 e heB
        exact ⟨obs3, by simpa [mapLookup_insert_ne hed] using h3e⟩

theorem unsubscribeClientFromDriver_clientSubscriptions (clientId driverId : String)
    (s : RTState) :
    (unsubscribeClientFromDriver clientId driverId s).clientSubscriptions =
      mapEraseAll clientId s.clientSubscriptions := by
  simp only [unsubscribeClientFromDriver]
  repeat' split
  all_goals simp [apply_ite RTState.clientSubscriptions]

theorem inv_subscribeFresh {s0 : RTState} (hInv : LedgerInv s0)
    {clientId : String} (hc : mapLookup clientId s0.clientSubscriptions = none)
    (driverId : String) (profileFetch : Option DriverProfile)
    (locationFetch : Option DriverLocation) :
    LedgerInv (subscribeFresh clientId driverId profileFetch locationFetch s0) := by
  obtain ⟨h1, h2, h3, h4⟩ := hInv
  obtain ⟨hCS, hDS, hB, hST, hUT, hPT⟩ :=
    subscribeFresh_fields clientId driverId profileFetch locationFetch s0
  cases hd : mapLookup driverId s0.driverSubscribers with
  | none =>
    simp only [hd, Option.getD_none, Option.isNone_none, if_true] at hDS hB
    refine ⟨?_, ?_, ?_, ?_⟩
    · intro p hp
      rw [hDS] at hp
      rcases mem_mapInsert.mp hp with hpnew | ⟨hpDS, hpne⟩
      · subst hpnew
        refine ⟨?_, ?_, ?_⟩
        · show setInsert clientId [] ≠ []
          exact setInsert_ne_nil _ _
        · simp [setInsert]
        · intro x hx
          rcases mem_setInsert.mp (show x ∈ setInsert clientId [] from hx)
            with rfl | hxnil
          · rw [hCS]
            exact mapLookup_insert_self _ _ _
          · exact absurd hxnil (List.not_mem_nil x)
      · obtain ⟨hne, hnd, hbind⟩ := h1 p hpDS
        refine ⟨hne, hnd, ?_⟩
        intro x hx
        have hxb := hbind x hx
        have hxcl : x ≠ clientId := by
          intro hxeq
          rw [hxeq, hc] at hxb
          exact Option.noConfusion hxb
        rw [hCS, mapLookup_insert_ne hxcl]
        exact hxb
    · intro q hq
      rw [hCS] at hq
      rcases mem_mapInsert.mp hq with hqnew | ⟨hqCS, hqne⟩
      · subst hqnew
        refine ⟨setInsert clientId [], ?_, mem_setInsert.mpr (Or.inl rfl)⟩
        rw [hDS]
        exact mapLookup_insert_self _ _ _
      · obtain ⟨obs2, hq2, hq1m⟩ := h2 q hqCS
        have hq2d : q.2 ≠ driverId := by
          intro hqeq
          rw [hqeq, hd] at hq2
          exact Option.noConfusion hq2
        refine ⟨obs2, ?_, hq1m⟩
        rw [hDS, mapLookup_insert_ne hq2d]
        exact hq2
    · intro p hp
      rw [hDS] at hp
      rw [hB]
      rcases mem_mapInsert.mp hp with hpnew | ⟨hpDS, _⟩
      · subst hpnew
        exact mem_setInsert.mpr (Or.inl rfl)
      · exact mem_setInsert.mpr (Or.inr (h3 p hpDS))
    · intro e he
      rw [hB] at he
      rw [hDS]
      by_cases hed : e = driverId
      · exact ⟨setInsert clientId [], by rw [hed]; exact mapLookup_insert_self _ _ _⟩
      · rcases mem_setInsert.mp he with rfl | heB
        · exact absurd rfl hed
        · obtain ⟨obs3, h3e⟩ := h4 e heB
          exact ⟨obs3, by rw [mapLookup_insert_ne hed]; exact h3e⟩
  | some obs =>
    simp only [hd, Option.getD_some, Option.isNone_some, if_false, Bool.false_eq_true]
      at hDS hB
    obtain ⟨hne0, hnd0, hbind0⟩ := h1 (driverId, obs) (mapLookup_eq_some_mem hd)
    refine ⟨?_, ?_, ?_, ?_⟩
    · intro p hp
      rw [hDS] at hp
      rcases mem_mapInsert.mp hp with hpnew | ⟨hpDS, hpne⟩
      · subst hpnew
        refine ⟨setInsert_ne_nil _ _, setInsert_nodup hnd0, ?_⟩
        intro x hx
        rcases mem_setInsert.mp hx with rfl | hxobs
        · rw [hCS]
          exact mapLookup_insert_self _ _ _
        · have hxb := hbind0 x hxobs
          have hxcl : x ≠ clientId := by
            intro hxeq
            rw [hxeq, hc] at hxb
            exact Option.noConfusion hxb
          rw [hCS, mapLookup_insert_ne hxcl]
          exact hxb
      · obtain ⟨hne, hnd, hbind⟩ := h1 p hpDS
        refine ⟨hne, hnd, ?_⟩
        intro x hx
        have hxb := hbind x hx
        have hxcl : x ≠ clientId := by
          intro hxeq
          rw [hxeq, hc] at hxb
          exact Option.noConfusion hxb
        rw [hCS, mapLookup_insert_ne hxcl]
        exact hxb
    · intro q hq
      rw [hCS] at hq
      rcases mem_mapInsert.mp hq with hqnew | ⟨hqCS, hqne⟩
      · subst hqnew
        refine ⟨setInsert clientId obs, ?_, mem_setInsert.mpr (Or.inl rfl)⟩
        rw [hDS]
        exact mapLookup_insert_self _ _ _
      · obtain ⟨obs2, hq2, hq1m⟩ := h2 q hqCS
        by_cases hq2d : q.2 = driverId
        · rw [hq2d, hd] at hq2
          refine ⟨setInsert clientId obs, ?_, ?_⟩
          · rw [hDS, hq2d]
            exact mapLookup_insert_self _ _ _
          · exact mem_setInsert.mpr (Or.inr ((Option.some.inj hq2) ▸ hq1m))
        · refine ⟨obs2, ?_, hq1m⟩
          rw [hDS, mapLookup_insert_ne hq2d]
          exact hq2
    · intro p hp
      rw [hDS] at hp
      rw [hB]
      rcases mem_mapInsert.mp hp with hpnew | ⟨hpDS, _⟩
      · subst hpnew
        exact h3 (driverId, obs) (mapLookup_eq_some_mem hd)
      · exact h3 p hpDS
    · intro e heB
      rw [hB] at heB
      rw [hDS]
      by_cases hed : e = driverId
      · exact ⟨setInsert clientId obs, by rw [hed]; exact mapLookup_insert_self _ _ _⟩
      · obtain ⟨obs3, h3e⟩ := h4 e heB
        exact ⟨obs3, by rw [mapLookup_insert_ne hed]; exact h3e⟩

theorem inv_subscribeToDriverUpdates {s : RTState} (hInv : LedgerInv s)
    (clientId driverId : String) (profileFetch : Option DriverProfile)
    (locationFetch : Option DriverLocation) :
    LedgerInv (subscribeToDriverUpdates clientId driverId profileFetch locationFetch s) := by
  unfold subscribeToDriverUpdates
  cases hcs : mapLookup clientId s.clientSubscriptions with
  | none => exact inv_subscribeFresh hInv hcs driverId profileFetch locationFetch
  | some prev =>
    have hInv' := inv_unsubscribeClientFromDriver hInv hcs
    have hc' : mapLookup clientId
        (unsubscribeClientFromDriver clientId prev s).clientSubscriptions = none := by
      rw [unsubscribeClientFromDriver_clientSubscriptions]
      exact mapLookup_eraseAll_self _ _
    exact inv_subscribeFresh hInv' hc' driverId profileFetch locationFetch

theorem inv_unsubscribeFromDriverUpdates {s : RTState} (hInv : LedgerInv s)
    (clientId : String) : LedgerInv (unsubscribeFromDriverUpdates clientId s) := by
  unfold unsubscribeFromDriverUpdates
  cases hcs : mapLookup clientId s.clientSubscriptions with
  | none => exact hInv
  | some driverId => exact inv_unsubscribeClientFromDriver hInv hcs

theorem inv_applyOp {s : RTState} (hInv : LedgerInv s) (op : Op) :
    LedgerInv (applyOp s op) := by
  cases op with
  | subscribe clientId driverId profileFetch locationFetch =>
    exact inv_subscribeToDriverUpdates hInv clientId driverId profileFetch locationFetch
  | unsubscribe clientId => exact inv_unsubscribeFromDriverUpdates hInv clientId

theorem inv_run (ops : List Op) : LedgerInv (run ops) := by
  suffices h : ∀ s, LedgerInv s → LedgerInv (List.foldl applyOp s ops) from
    h initialState inv_initialState
  induction ops with
  | nil => exact fun s h => h
  | cons op rest ih => exact fun s h => ih _ (inv_applyOp h op)

theorem subscribeFresh_clientSubscriptions (clientId driverId : String)
    (profileFetch : Option DriverProfile) (locationFetch : Option DriverLocation)
    (s0 : RTState) :
    (subscribeFresh clientId driverId profileFetch locationFetch s0).clientSubscriptions
      = mapInsert clientId driverId s0.clientSubscriptions :=
  (subscribeFresh_fields clientId driverId profileFetch locationFetch s0).1

theorem subscribeFresh_driverSubscribers (clientId driverId : String)
    (profileFetch : Option DriverProfile) (locationFetch : Option DriverLocation)
    (s0 : RTState) :
    (subscribeFresh clientId driverId profileFetch locationFetch s0).driverSubscribers
      = mapInsert driverId
          (setInsert clientId ((mapLookup driverId s0.driverSubscribers).getD []))
          s0.driverSubscribers :=
  (subscribeFresh_fields clientId driverId profileFetch locationFetch s0).2.1

theorem subscribeFresh_busSubscribed (clientId driverId : String)
    (profileFetch : Option DriverProfile) (locationFetch : Option DriverLocation)
    (s0 : RTState) :
    (subscribeFresh clientId driverId profileFetch locationFetch s0).busSubscribed
      = (if (mapLookup driverId s0.driverSubscribers).isNone
          then setInsert driverId s0.busSubscribed else s0.busSubscribed) :=
  (subscribeFresh_fields clientId driverId profileFetch locationFetch s0).2.2.1

theorem subscribeFresh_busSubscribeTrace (clientId driverId : String)
    (profileFetch : Option DriverProfile) (locationFetch : Option DriverLocation)
    (s0 : RTState) :
    (subscribeFresh clientId driverId profileFetch locationFetch s0).busSubscribeTrace
      = (if (mapLookup driverId s0.driverSubscribers).isNone
          then s0.busSubscribeTrace ++ [driverId] else s0.busSubscribeTrace) :=
  (subscribeFresh_fields clientId driverId profileFetch locationFetch s0).2.2.2.1

theorem subscribeFresh_busUnsubscribeTrace (clientId driverId : String)
    (profileFetch : Option DriverProfile) (locationFetch : Option DriverLocation)
    (s0 : RTState) :
    (subscribeFresh clientId driverId profileFetch locationFetch s0).busUnsubscribeTrace
      = s0.busUnsubscribeTrace :=
  (subscribeFresh_fields clientId driverId profileFetch locationFetch s0).2.2.2.2.1

theorem subscribe_clientSub_self (clientId driverId : String)
    (profileFetch : Option DriverProfile) (locationFetch : Option DriverLocation)
    (s : RTState) :
    mapLookup clientId
        (subscribeToDriverUpdates clientId driverId profileFetch locationFetch s).clientSubscriptions
      = some driverId := by
  unfold subscribeToDriverUpdates
  cases hcs : mapLookup clientId s.clientSubscriptions <;>
    simp [subscribeFresh_clientSubscriptions, mapLookup_insert_self]

theorem not_mem_observers_unsub (clientId driverId : String) (s : RTState) :
    clientId ∉ observersOf driverId (unsubscribeClientFromDriver clientId driverId s) := by
  unfold observersOf
  cases hd : mapLookup driverId s.driverSubscribers with
  | none =>
    rw [unsubscribeClientFromDriver_of_none clientId driverId s hd]
    simp [hd]
  | some obs =>
    by_cases he : setErase clientId obs = []
    · rw [unsubscribeClientFromDriver_of_last clientId driverId obs s hd he]
      simp [mapLookup_eraseAll_self]
    · rw [unsubscribeClientFromDriver_of_rest clientId driverId obs s hd he]
      simp only [mapLookup_insert_self, Option.getD_some]
      exact not_mem_setErase_self clientId obs

/-! ### Claim theorems -/

/-- C4: `handleLocationUpdate(A, sample)` always overwrites the location
cache entry for A; it publishes the sample on the bus exactly when A has
at least one local observer, and otherwise returns without publishing. -/
theorem handleLocationUpdate_cache_and_publish_gate
    (driverId : String) (location : DriverLocation) (s : RTState) :
    mapLookup driverId
        (handleDriverLocationUpdate driverId location s).locationCache = some location ∧
    (handleDriverLocationUpdate driverId location s).busPublishTrace
      = (if hasLocalObservers driverId s
          then s.busPublishTrace ++ [(driverId, location)]
          else s.busPublishTrace) := by
  unfold handleDriverLocationUpdate hasLocalObservers
  cases hd : mapLookup driverId s.driverSubscribers with
  | none => simp [hd, mapLookup_insert_self]
  | some obs =>
    by_cases he : obs.isEmpty <;> simp [hd, he, mapLookup_insert_self]

/-- C6: `isOnline(A)` is `true` iff a location is resolvable for A
(cache first, else the collaborator) whose age `now - observedAt` is
strictly below 10 minutes; it is `false` for absent or stale data. -/
theorem isDriverOnline_iff (driverId : String)
    (locationFetch : Option DriverLocation) (now : ℤ) (s : RTState) :
    isDriverOnline driverId locationFetch now s = true ↔
      ∃ l, resolveLocation driverId locationFetch s = some l ∧
        now - l.timestamp < 10 * 60 * 1000 := by
  unfold isDriverOnline
  cases hr : resolveLocation driverId locationFetch s with
  | none => simp
  | some l =>
    simp only [DriverLocation.isRecent, decide_eq_true_eq, Option.some.injEq]
    constructor
    · intro h
      exact ⟨l, rfl, by omega⟩
    · rintro ⟨l', hl', h⟩
      subst hl'
      omega

/-- C9: the HTTP collaborator adapter's `validateDriverToken` answers
`isValid := true` with the response body's `driverId` whenever the HTTP
POST resolves, answers `isValid := false` exactly when the call throws,
and never inspects any validity flag carried in the response body. -/
theorem validateDriverToken_shape :
    (∀ body : AuthValidateResponse,
        validateDriverToken (Except.ok body) = (true, body.driverId)) ∧
    (∀ e : Unit, validateDriverToken (Except.error e) = (false, none)) ∧
    (∀ r : Except Unit AuthValidateResponse,
        (validateDriverToken r).1 = true ↔ ∃ body, r = Except.ok body) ∧
    (∀ (flagA flagB : Option Bool) (did : Option String),
        validateDriverToken (Except.ok ⟨flagA, did⟩) =
          validateDriverToken (Except.ok ⟨flagB, did⟩)) := by
  refine ⟨fun body => rfl, fun e => rfl, ?_, fun _ _ _ => rfl⟩
  intro r
  cases r <;> simp [validateDriverToken]

/-- C1 (code evaluation at the failing input): the handler the
constructor registers with the messaging bus is the ingestion method
`handleDriverLocationUpdate` itself, so an inbound cross-instance
delivery for a driver with one local observer performs a
`publishDriverLocationUpdate` call — the delivered sample is re-published
to the very channel it arrived on. -/
theorem inboundBusDelivery_republishes :
    registeredBusHandler = handleDriverLocationUpdate ∧
    (run [Op.subscribe "client1" "1" none none]).busPublishTrace = [] ∧
    (registeredBusHandler "1" ⟨"1", 40, -74, 0⟩
        (run [Op.subscribe "client1" "1" none none])).busPublishTrace
      = [("1", ⟨"1", 40, -74, 0⟩)] := by
  refine ⟨rfl, ?_, ?_⟩ <;> rfl

/-- C2 counterexample: an `update-location` call with latitude 95 (out of
the [-90, 90] range) from an authenticated driver socket is **not**
rejected: it succeeds and overwrites the location cache entry. -/
theorem updateLocation_outOfRange_accepted :
    gatewayHandleLocationUpdate (some "1") (some ⟨some 95, some 0⟩) 0 initialState
      = ({ initialState with locationCache := [("1", ⟨"1", 95, 0, 0⟩)] },
         Except.ok ()) ∧
    mapLookup "1"
        (gatewayHandleLocationUpdate (some "1") (some ⟨some 95, some 0⟩) 0
            initialState).1.locationCache
      = some ⟨"1", 95, 0, 0⟩ := by
  constructor <;> rfl

/-- C2 (amended): the driver gateway rejects `update-location` with
"Invalid location data" — mutating no state — exactly when the payload is
missing or one of the coordinates is not a number; any pair of numeric
coordinates (regardless of range) is forwarded to
`handleDriverLocationUpdate` with a server-assigned timestamp. -/
theorem updateLocation_validation (driverId : String)
    (msg : Option LocationUpdateMsg) (now : ℤ) (s : RTState) :
    ((msg = none ∨ ∃ m, msg = some m ∧ (m.latitude = none ∨ m.longitude = none)) →
      gatewayHandleLocationUpdate (some driverId) msg now s =
        (s, .error "Invalid location data")) ∧
    (∀ (m : LocationUpdateMsg) (lat lon : ℚ),
      msg = some m → m.latitude = some lat → m.longitude = some lon →
      gatewayHandleLocationUpdate (some driverId) msg now s =
        (handleDriverLocationUpdate driverId ⟨driverId, lat, lon, now⟩ s, .ok ())) := by
  constructor
  · rintro (rfl | ⟨m, rfl, hbad⟩)
    · rfl
    · rcases m with ⟨latField, lonField⟩
      rcases hbad with hlat | hlon
      · cases latField with
        | none => cases lonField <;> rfl
        | some _ => exact absurd hlat (by simp)
      · cases lonField with
        | none => cases latField <;> rfl
        | some _ => exact absurd hlon (by simp)
  · intro m lat lon hm hlat hlon
    subst hm
    rcases m with ⟨latField, lonField⟩
    simp only at hlat hlon
    subst hlat
    subst hlon
    rfl

/-- Witness for the amended C2 at a concrete input: a payload whose
latitude is not a number is rejected with "Invalid location data" and the
state is returned unchanged. -/
theorem updateLocation_validation_witness :
    gatewayHandleLocationUpdate (some "1") (some ⟨none, some 0⟩) 0 initialState =
      (initialState, .error "Invalid location data") :=
  (updateLocation_validation "1" (some ⟨none, some 0⟩) 0 initialState).1
    (Or.inr ⟨⟨none, some 0⟩, rfl, Or.inl rfl⟩)

/-- C8: subscribing the same observer to the same actor twice in
succession leaves the actor's observer set with exactly one entry for
that observer, and the observer bound to that actor. -/
theorem idempotent_resubscribe (s : RTState) (observerId actorId : String)
    (profileFetchA profileFetchB : Option DriverProfile)
    (locationFetchA locationFetchB : Option DriverLocation) :
    List.count observerId
        (observersOf actorId
          (subscribeToDriverUpdates observerId actorId profileFetchB locationFetchB
            (subscribeToDriverUpdates observerId actorId profileFetchA locationFetchA s)))
      = 1 ∧
    mapLookup observerId
        (subscribeToDriverUpdates observerId actorId profileFetchB locationFetchB
          (subscribeToDriverUpdates observerId actorId profileFetchA locationFetchA s)).clientSubscriptions
      = some actorId := by
  set s1 := subscribeToDriverUpdates observerId actorId profileFetchA locationFetchA s
    with hs1
  have hself : mapLookup observerId s1.clientSubscriptions = some actorId := by
    rw [hs1]
    exact subscribe_clientSub_self observerId actorId profileFetchA locationFetchA s
  have hstep : subscribeToDriverUpdates observerId actorId profileFetchB locationFetchB s1 =
      subscribeFresh observerId actorId profileFetchB locationFetchB
        (unsubscribeClientFromDriver observerId actorId s1) := by
    unfold subscribeToDriverUpdates
    rw [hself]
  rw [hstep]
  constructor
  · have hnot := not_mem_observers_unsub observerId actorId s1
    unfold observersOf at hnot ⊢
    rw [subscribeFresh_driverSubscribers, mapLookup_insert_self]
    simp only [Option.getD_some]
    exact count_setInsert_of_not_mem hnot
  · rw [subscribeFresh_clientSubscriptions, mapLookup_insert_self]

/-- C5: after `subscribe(O, A)` then `subscribe(O, B)` with `A ≠ B`, the
observer O is absent from A's observer set, present in B's, and bound to
B in the observer-to-actor map. -/
theorem single_active_subscription (s : RTState) (observerId actorA actorB : String)
    (profileFetchA profileFetchB : Option DriverProfile)
    (locationFetchA locationFetchB : Option DriverLocation)
    (hAB : actorA ≠ actorB) :
    observerId ∉ observersOf actorA
        (subscribeToDriverUpdates observerId actorB profileFetchB locationFetchB
          (subscribeToDriverUpdates observerId actorA profileFetchA locationFetchA s)) ∧
    observerId ∈ observersOf actorB
        (subscribeToDriverUpdates observerId actorB profileFetchB locationFetchB
          (subscribeToDriverUpdates observerId actorA profileFetchA locationFetchA s)) ∧
    mapLookup observerId
        (subscribeToDriverUpdates observerId actorB profileFetchB locationFetchB
          (subscribeToDriverUpdates observerId actorA profileFetchA locationFetchA s)).clientSubscriptions
      = some actorB := by
  set s1 := subscribeToDriverUpdates observerId actorA profileFetchA locationFetchA s
    with hs1
  have hself : mapLookup observerId s1.clientSubscriptions = some actorA := by
    rw [hs1]
    exact subscribe_clientSub_self observerId actorA profileFetchA locationFetchA s
  have hstep : subscribeToDriverUpdates observerId actorB profileFetchB locationFetchB s1 =
      subscribeFresh observerId actorB profileFetchB locationFetchB
        (unsubscribeClientFromDriver observerId actorA s1) := by
    unfold subscribeToDriverUpdates
    rw [hself]
  rw [hstep]
  refine ⟨?_, ?_, ?_⟩
  · have hnot := not_mem_observers_unsub observerId actorA s1
    unfold observersOf at hnot ⊢
    rw [subscribeFresh_driverSubscribers, mapLookup_insert_ne hAB]
    exact hnot
  · unfold observersOf
    rw [subscribeFresh_driverSubscribers, mapLookup_insert_self]
    simp only [Option.getD_some]
    exact mem_setInsert.mpr (Or.inl rfl)
  · rw [subscribeFresh_clientSubscriptions, mapLookup_insert_self]

/-- Witness for C5 at concrete inputs. -/
theorem single_active_subscription_witness :
    "o1" ∉ observersOf "a1"
        (subscribeToDriverUpdates "o1" "b1" none none
          (subscribeToDriverUpdates "o1" "a1" none none initialState)) ∧
    "o1" ∈ observersOf "b1"
        (subscribeToDriverUpdates "o1" "b1" none none
          (subscribeToDriverUpdates "o1" "a1" none none initialState)) ∧
    mapLookup "o1"
        (subscribeToDriverUpdates "o1" "b1" none none
          (subscribeToDriverUpdates "o1" "a1" none none initialState)).clientSubscriptions
      = some "b1" :=
  single_active_subscription initialState "o1" "a1" "b1" none none none none
    (by decide)

/-- C10: re-subscribing an actor's sole observer to the same actor first
runs the full unsubscribe path (one bus-unsubscribe call, the actor's
observer entry deleted) and then rebuilds it (one bus-subscribe call) —
a bus unsubscribe/subscribe cycle although the final ledger is the same
as before the call. -/
theorem resubscribe_bus_cycle (s : RTState) (observerId actorId : String)
    (profileFetch : Option DriverProfile) (locationFetch : Option DriverLocation)
    (hbind : mapLookup observerId s.clientSubscriptions = some actorId)
    (hsole : mapLookup actorId s.driverSubscribers = some [observerId])
    (hbus : actorId ∈ s.busSubscribed) :
    (subscribeToDriverUpdates observerId actorId profileFetch locationFetch s).busUnsubscribeTrace
      = s.busUnsubscribeTrace ++ [actorId] ∧
    (subscribeToDriverUpdates observerId actorId profileFetch locationFetch s).busSubscribeTrace
      = s.busSubscribeTrace ++ [actorId] ∧
    mapLookup actorId
        (subscribeToDriverUpdates observerId actorId profileFetch locationFetch s).driverSubscribers
      = some [observerId] ∧
    mapLookup observerId
        (subscribeToDriverUpdates observerId actorId profileFetch locationFetch s).clientSubscriptions
      = some actorId ∧
    (∀ d, d ≠ actorId →
      mapLookup d
          (subscribeToDriverUpdates observerId actorId profileFetch locationFetch s).driverSubscribers
        = mapLookup d s.driverSubscribers) ∧
    (∀ c, c ≠ observerId →
      mapLookup c
          (subscribeToDriverUpdates observerId actorId profileFetch locationFetch s).clientSubscriptions
        = mapLookup c s.clientSubscriptions) ∧
    (∀ e, e ∈ (subscribeToDriverUpdates observerId actorId profileFetch locationFetch s).busSubscribed
        ↔ e ∈ s.busSubscribed) := by
  have hstep : subscribeToDriverUpdates observerId actorId profileFetch locationFetch s =
      subscribeFresh observerId actorId profileFetch locationFetch
        (unsubscribeClientFromDriver observerId actorId s) := by
    unfold subscribeToDriverUpdates
    rw [hbind]
  have hzero : setErase observerId [observerId] = [] := by simp [setErase]
  have hu := unsubscribeClientFromDriver_of_last observerId actorId [observerId] s hsole hzero
  rw [hstep, hu]
  have hlook : mapLookup actorId (mapEraseAll actorId s.driverSubscribers) = none :=
    mapLookup_eraseAll_self _ _
  refine ⟨?_, ?_, ?_, ?_, ?_, ?_, ?_⟩
  · rw [subscribeFresh_busUnsubscribeTrace]
  · rw [subscribeFresh_busSubscribeTrace]
    simp [hlook]
  · rw [subscribeFresh_driverSubscribers, mapLookup_insert_self]
    simp [hlook, setInsert]
  · rw [subscribeFresh_clientSubscriptions, mapLookup_insert_self]
  · intro d hd
    rw [subscribeFresh_driverSubscribers, mapLookup_insert_ne hd]
    exact mapLookup_eraseAll_ne hd _
  · intro c hc
    rw [subscribeFresh_clientSubscriptions, mapLookup_insert_ne hc]
    exact mapLookup_eraseAll_ne hc _
  · intro e
    rw [subscribeFresh_busSubscribed]
    simp only [hlook, Option.isNone_none, if_true]
    by_cases he : e = actorId
    · subst he
      simp [mem_setInsert, hbus]
    · simp [mem_setInsert, mem_setErase, he]

/-- Witness for C10 at a concrete input: the sole observer "o1" of actor
"a1" re-subscribes and both bus traces grow by one "a1" entry. -/
theorem resubscribe_bus_cycle_witness :
    (subscribeToDriverUpdates "o1" "a1" none none
        (run [Op.subscribe "o1" "a1" none none])).busUnsubscribeTrace
      = (run [Op.subscribe "o1" "a1" none none]).busUnsubscribeTrace ++ ["a1"] ∧
    (subscribeToDriverUpdates "o1" "a1" none none
        (run [Op.subscribe "o1" "a1" none none])).busSubscribeTrace
      = (run [Op.subscribe "o1" "a1" none none]).busSubscribeTrace ++ ["a1"] :=
  ⟨(resubscribe_bus_cycle (run [Op.subscribe "o1" "a1" none none]) "o1" "a1"
      none none (by decide) (by decide) (by decide)).1,
   (resubscribe_bus_cycle (run [Op.subscribe "o1" "a1" none none]) "o1" "a1"
      none none (by decide) (by decide) (by decide)).2.1⟩

/-- C3: in every state reachable by subscribe/unsubscribe operations, an
actor has a non-empty observer-set entry iff some observer is bound to it
in the observer-to-actor map, iff this instance holds a bus subscription
for the actor's channel; and unsubscribing an actor's last observer
issues exactly one bus-unsubscribe call for that actor. -/
theorem subscription_ledger_invariant (ops : List Op) (actorId clientId : String) :
    ((∃ obs, mapLookup actorId (run ops).driverSubscribers = some obs ∧ obs ≠ []) ↔
      ∃ c, mapLookup c (run ops).clientSubscriptions = some actorId) ∧
    ((∃ obs, mapLookup actorId (run ops).driverSubscribers = some obs ∧ obs ≠ []) ↔
      actorId ∈ (run ops).busSubscribed) ∧
    (mapLookup actorId (run ops).driverSubscribers = some [clientId] →
      (applyOp (run ops) (Op.unsubscribe clientId)).busUnsubscribeTrace =
        (run ops).busUnsubscribeTrace ++ [actorId]) := by
  obtain ⟨h1, h2, h3, h4⟩ := inv_run ops
  refine ⟨⟨?_, ?_⟩, ⟨?_, ?_⟩, ?_⟩
  · rintro ⟨obs, hd, hne⟩
    obtain ⟨_, _, hbind⟩ := h1 (actorId, obs) (mapLookup_eq_some_mem hd)
    obtain ⟨c, hc⟩ := List.exists_mem_of_ne_nil obs hne
    exact ⟨c, hbind c hc⟩
  · rintro ⟨c, hc⟩
    obtain ⟨obs, hd, hmem⟩ := h2 (c, actorId) (mapLookup_eq_some_mem hc)
    exact ⟨obs, hd, List.ne_nil_of_mem hmem⟩
  · rintro ⟨obs, hd, _⟩
    exact h3 (actorId, obs) (mapLookup_eq_some_mem hd)
  · intro hbusmem
    obtain ⟨obs, hd⟩ := h4 actorId hbusmem
    exact ⟨obs, hd, (h1 (actorId, obs) (mapLookup_eq_some_mem hd)).1⟩
  · intro hsole
    have hbind : mapLookup clientId (run ops).clientSubscriptions = some actorId :=
      (h1 (actorId, [clientId]) (mapLookup_eq_some_mem hsole)).2.2 clientId (by simp)
    show (unsubscribeFromDriverUpdates clientId (run ops)).busUnsubscribeTrace = _
    unfold unsubscribeFromDriverUpdates
    rw [hbind]
    show (unsubscribeClientFromDriver clientId actorId (run ops)).busUnsubscribeTrace = _
    rw [unsubscribeClientFromDriver_of_last clientId actorId [clientId] (run ops)
        hsole (by simp [setErase])]

/-- Witness for C3's last-observer clause at a concrete input. -/
theorem subscription_ledger_invariant_witness :
    (applyOp (run [Op.subscribe "c1" "d1" none none])
        (Op.unsubscribe "c1")).busUnsubscribeTrace
      = (run [Op.subscribe "c1" "d1" none none]).busUnsubscribeTrace ++ ["d1"] :=
  (subscription_ledger_invariant [Op.subscribe "c1" "d1" none none] "d1" "c1").2.2
    (by decide)

/-- C7: on a push tick whose resolved location is present but at least
10 minutes old while the client's timer runs at the 5-second online
cadence, the gateway emits `driver-offline` carrying the stale sample's
original timestamp and reschedules the timer at the 60-second offline
cadence. -/
theorem stale_tick_offline_event (driverId : String)
    (locationFetch : Option DriverLocation) (profileFetch : Option DriverProfile)
    (now : ℤ) (s s1 : RTState) (location : DriverLocation) (profile : DriverProfile)
    (hres : getDriverLocationAndProfile driverId locationFetch profileFetch s
      = (some (location, profile), s1))
    (hstale : now - location.timestamp ≥ 10 * 60 * 1000) :
    (sendDriverUpdate driverId locationFetch profileFetch now
        (some ONLINE_UPDATE_INTERVAL) s).1
      = ClientEvent.driverOffline driverId "OFFLINE_DRIVER"
          "The driver has not sent their location in the last 10 minutes"
          (some location.timestamp) ∧
    (sendDriverUpdate driverId locationFetch profileFetch now
        (some ONLINE_UPDATE_INTERVAL) s).2.1
      = some OFFLINE_UPDATE_INTERVAL := by
  have hnotrecent : ¬ (now - location.timestamp < 600000) := by omega
  unfold sendDriverUpdate
  rw [hres]
  simp [hnotrecent]

/-- Witness for C7 at a concrete input: a sample observed at time 0,
evaluated at `now` = 10 minutes, with both halves cached. -/
theorem stale_tick_offline_event_witness :
    (sendDriverUpdate "1" none none 600000 (some ONLINE_UPDATE_INTERVAL)
        ⟨[], [], [("1", ⟨"1", 40, -74, 0⟩)], [("1", ⟨"1", "John Doe", "img"⟩)],
          [], [], [], []⟩).1
      = ClientEvent.driverOffline "1" "OFFLINE_DRIVER"
          "The driver has not sent their location in the last 10 minutes" (some 0) ∧
    (sendDriverUpdate "1" none none 600000 (some ONLINE_UPDATE_INTERVAL)
        ⟨[], [], [("1", ⟨"1", 40, -74, 0⟩)], [("1", ⟨"1", "John Doe", "img"⟩)],
          [], [], [], []⟩).2.1
      = some OFFLINE_UPDATE_INTERVAL :=
  stale_tick_offline_event "1" none none 600000
    ⟨[], [], [("1", ⟨"1", 40, -74, 0⟩)], [("1", ⟨"1", "John Doe", "img"⟩)],
      [], [], [], []⟩
    ⟨[], [], [("1", ⟨"1", 40, -74, 0⟩)], [("1", ⟨"1", "John Doe", "img"⟩)],
      [], [], [], []⟩
    ⟨"1", 40, -74, 0⟩ ⟨"1", "John Doe", "img"⟩ (by rfl) (by decide)
